import Mathlib

/-!
Verification of the sendly-node SDK against its design specification.

The development shallowly embeds the SDK's execution core and utility
modules in Lean 4:

* `src/utils/validation.ts` — `validatePhoneNumber`, `calculateSegments`;
* `src/errors.ts` — the `SendlyError` hierarchy and `SendlyError.fromResponse`;
* the HTTP client utility — construction-time credential/URL checks, the
  rate-limit snapshot, and the retry loop of `HttpClient.request`;
* `src/utils/webhooks.ts` — `generateWebhookSignature`,
  `verifyWebhookSignature`, `parseWebhookEvent`, over a full executable
  model of HMAC-SHA256 and of `JSON.parse`.

JavaScript-specific behaviour is modelled explicitly: falsy fallbacks
(`x || d`) treat the empty string and the number 0 as absent, `parseInt`
is embedded as a partial integer parser returning `none` for NaN, string
lengths are counted in UTF-16 code units where the source uses
`String.prototype.length`, and ambient effects (the clock, `Math.random`,
the transport) are passed as explicit parameters.
-/

namespace Sendly

/-! ## JavaScript primitives -/

/-- Characters treated as whitespace by JavaScript's `parseInt`. -/
def jsIsSpace (c : Char) : Bool :=
  c = ' ' ∨ c = '\t' ∨ c = '\n' ∨ c = '\r'

/-- Decimal digit test (the regex class `\d`, i.e. code points 48–57). -/
def isDigitChar (c : Char) : Bool :=
  48 ≤ c.toNat ∧ c.toNat ≤ 57

/-- Numeric value of a digit list (most significant first). -/
def digitsVal (cs : List Char) : Nat :=
  cs.foldl (fun acc c => acc * 10 + (c.toNat - '0'.toNat)) 0

/-- Greedy decimal-digit run at the head of the input; `none` when the run
is empty (which is how `parseInt` yields `NaN`). -/
def digitsRun (cs : List Char) : Option Nat :=
  let ds := cs.takeWhile isDigitChar
  if ds = [] then none else some (digitsVal ds)

/-- Embedding of JavaScript `parseInt(s, 10)`: skip leading whitespace,
accept an optional sign, then a greedy digit run; `none` models `NaN`. -/
def parseIntJs (s : String) : Option Int :=
  let cs := s.data.dropWhile jsIsSpace
  match cs with
  | '-' :: rest => (digitsRun rest).map (fun n => -(n : Int))
  | '+' :: rest => (digitsRun rest).map (fun n => (n : Int))
  | rest => (digitsRun rest).map (fun n => (n : Int))

/-- JavaScript `a || b` on strings: the empty string is falsy. -/
def jsOrStr (s d : String) : String :=
  if s = "" then d else s

/-- JavaScript `a || b` where `a` is an optional number: `undefined` and
`0` are both falsy. -/
def jsOrNum (o : Option Int) (d : Int) : Int :=
  match o with
  | none => d
  | some v => if v = 0 then d else v

/-- JavaScript truthiness of an optional string (a missing header,
`headers.get(...) === null`, and the empty string are falsy). -/
def jsTruthyStr (o : Option String) : Bool :=
  match o with
  | none => false
  | some s => s ≠ ""

/-- Length of a string in UTF-16 code units, which is what
`String.prototype.length` counts: code points above `0xFFFF` take two
units (a surrogate pair). -/
def jsLength (s : String) : Nat :=
  (s.data.map (fun c => if c.toNat < 65536 then 1 else 2)).sum

/-! ## Field Validator (`src/utils/validation.ts`) -/

/-- The regular expression `/^\+[1-9]\d{1,14}$/` from `validatePhoneNumber`:
a `+`, a digit in `[1-9]` (code points 49–57), then between 1 and 14
further digits, and nothing else. -/
def e164Test (p : List Char) : Bool :=
  match p with
  | c0 :: c1 :: rest =>
      c0 = '+' ∧ (49 ≤ c1.toNat ∧ c1.toNat ≤ 57) ∧
        1 ≤ rest.length ∧ rest.length ≤ 14 ∧ rest.all isDigitChar
  | _ => false

/-- `validatePhoneNumber` from `src/utils/validation.ts`: rejects the empty
string, then rejects anything failing the E.164 regex; `.ok` models a
normal return, `.error` a thrown `ValidationError` with its message. -/
def validatePhoneNumber (phone : String) : Except String Unit :=
  if phone = "" then
    Except.error "Phone number is required"
  else if ¬ e164Test phone.data then
    Except.error ("Invalid phone number format: " ++ phone ++
      ". Expected E.164 format (e.g., +15551234567)")
  else
    Except.ok ()

/-- `calculateSegments` from `src/utils/validation.ts`. The encoding is
UCS-2 exactly when some character falls outside `[\x00-\x7F]` (the regex
`/[^\x00-\x7F]/`); lengths are JavaScript string lengths (UTF-16 units);
`Math.ceil(length / multiLimit)` is ceiling division. -/
def calculateSegments (text : String) : Nat :=
  let isUnicode := text.data.any (fun c => ¬ c.toNat ≤ 127)
  let singleLimit := if isUnicode then 70 else 160
  let multiLimit := if isUnicode then 67 else 153
  if jsLength text ≤ singleLimit then 1
  else (jsLength text + multiLimit - 1) / multiLimit

/-! ## Claim-side reformulation of the segment calculator -/

/-- Exact ceiling of `len / cap`, written through quotient and remainder
rather than through the `(len + cap - 1) / cap` form the code uses. -/
def ceilNat (len cap : Nat) : Nat :=
  len / cap + (if len % cap = 0 then 0 else 1)

/-- The segment count as the specification words it: GSM limits (160
single-segment, 153 per segment) when every character is 7-bit ASCII,
UCS-2 limits (70, 67) otherwise; one segment up to the single-segment
limit, the ceiling of `length / capacity` beyond it. -/
def segmentsSpec (text : String) : Nat :=
  if ∀ c ∈ text.data, c.toNat ≤ 127 then
    if jsLength text ≤ 160 then 1 else ceilNat (jsLength text) 153
  else
    if jsLength text ≤ 70 then 1 else ceilNat (jsLength text) 67

/-! ## Errors and the Error Classifier (`src/errors.ts`) -/

/-- The parsed body of a failed API response (`ApiErrorResponse` in
`src/types.ts`). The wire may omit any field: a missing or empty
machine-readable code and message are both JavaScript-falsy, so they are
modelled as the empty string; optionally absent numeric fields are
`Option Int` (`none` = `undefined`). -/
structure ApiErrorResponse where
  error : String := ""
  message : String := ""
  retryAfter : Option Int := none
  creditsNeeded : Option Int := none
  currentBalance : Option Int := none
deriving DecidableEq, Repr

/-- The `SendlyError` class hierarchy of `src/errors.ts` as a sum type:
one constructor per subclass, plus `base` for a plain `SendlyError`
(which `fromResponse` returns for unrecognized codes). Each constructor
carries the fields its class stores; `network` and `timeout` have code
`internal_error` and no HTTP status. -/
inductive SendlyError where
  | base (message : String) (code : String) (statusCode : Option Nat)
      (response : Option ApiErrorResponse)
  | authentication (message : String) (code : String) (statusCode : Option Nat)
      (response : Option ApiErrorResponse)
  | rateLimit (message : String) (retryAfter : Int) (statusCode : Option Nat)
      (response : Option ApiErrorResponse)
  | insufficientCredits (message : String) (creditsNeeded : Int) (currentBalance : Int)
      (statusCode : Option Nat) (response : Option ApiErrorResponse)
  | validation (message : String) (code : String) (statusCode : Option Nat)
      (response : Option ApiErrorResponse)
  | notFound (message : String) (statusCode : Option Nat)
      (response : Option ApiErrorResponse)
  | network (message : String)
  | timeout (message : String)
deriving DecidableEq, Repr

/-- The `statusCode` property of a `SendlyError`. -/
def SendlyError.statusCode : SendlyError → Option Nat
  | .base _ _ st _ => st
  | .authentication _ _ st _ => st
  | .rateLimit _ _ st _ => st
  | .insufficientCredits _ _ _ st _ => st
  | .validation _ _ st _ => st
  | .notFound _ st _ => st
  | .network _ => none
  | .timeout _ => none

/-- The `code` property of a `SendlyError` (subclasses with a fixed code
store it in their super-call). -/
def SendlyError.code : SendlyError → String
  | .base _ c _ _ => c
  | .authentication _ c _ _ => c
  | .rateLimit _ _ _ _ => "rate_limit_exceeded"
  | .insufficientCredits _ _ _ _ _ => "insufficient_credits"
  | .validation _ c _ _ => c
  | .notFound _ _ _ => "not_found"
  | .network _ => "internal_error"
  | .timeout _ => "internal_error"

/-- `error instanceof RateLimitError`. -/
def SendlyError.isRateLimit : SendlyError → Bool
  | .rateLimit _ _ _ _ => true
  | _ => false

/-- The codes routed to `AuthenticationError` by the `switch` in
`SendlyError.fromResponse`. -/
def authCodes : List String :=
  ["unauthorized", "invalid_auth_format", "invalid_key_format",
   "invalid_api_key", "key_revoked", "key_expired", "insufficient_permissions"]

/-- Every code with a dedicated `case` in `SendlyError.fromResponse`;
anything else falls to the `default` branch. -/
def recognizedCodes : List String :=
  authCodes ++ ["rate_limit_exceeded", "insufficient_credits",
    "invalid_request", "unsupported_destination", "not_found"]

/-- `SendlyError.fromResponse` from `src/errors.ts`: selects the error
variant from the body's machine-readable code, with JavaScript `||`
fallbacks for the message (`"An unknown error occurred"`), the code
(`"internal_error"`), `retryAfter` (60), and the credit fields (0). The
`switch`'s grouped `case` labels are membership tests, in source
order. -/
def SendlyError.fromResponse (statusCode : Nat) (response : ApiErrorResponse) :
    SendlyError :=
  let message := jsOrStr response.message "An unknown error occurred"
  let code := jsOrStr response.error "internal_error"
  if code ∈ authCodes then
    .authentication message code (some statusCode) (some response)
  else if code = "rate_limit_exceeded" then
    .rateLimit message (jsOrNum response.retryAfter 60) (some statusCode) (some response)
  else if code = "insufficient_credits" then
    .insufficientCredits message (jsOrNum response.creditsNeeded 0)
      (jsOrNum response.currentBalance 0) (some statusCode) (some response)
  else if code = "invalid_request" ∨ code = "unsupported_destination" then
    .validation message code (some statusCode) (some response)
  else if code = "not_found" then
    .notFound message (some statusCode) (some response)
  else
    .base message code (some statusCode) (some response)

/-! ## HTTP client construction (`HttpClient` utility) -/

/-- Character allowed in the opaque token of an API key
(regex class `[a-zA-Z0-9_-]`). -/
def apiKeyTokenChar (c : Char) : Bool :=
  c.isAlpha ∨ isDigitChar c ∨ c = '_' ∨ c = '-'

/-- `isValidApiKey`: the regex `/^sk_(test|live)_v1_[a-zA-Z0-9_-]+$/`. -/
def isValidApiKey (key : String) : Bool :=
  match key.data with
  | 's' :: 'k' :: '_' :: 't' :: 'e' :: 's' :: 't' :: '_' :: 'v' :: '1' :: '_' :: token =>
      token ≠ [] ∧ token.all apiKeyTokenChar
  | 's' :: 'k' :: '_' :: 'l' :: 'i' :: 'v' :: 'e' :: '_' :: 'v' :: '1' :: '_' :: token =>
      token ≠ [] ∧ token.all apiKeyTokenChar
  | _ => false

/-- Scheme and host of a parsed URL, the two components the constructor
inspects (`new URL(...).protocol` keeps the trailing colon; both scheme
and host are lowercased by the URL parser). -/
structure UrlParts where
  protocol : String
  hostname : String
deriving DecidableEq, Repr

/-- Split a character list at the first occurrence of `sep`, dropping the
separator; `none` when `sep` does not occur. -/
def breakOnFirst (sep : List Char) : List Char → Option (List Char × List Char)
  | [] => if sep.isPrefixOf ([] : List Char) then some ([], []) else none
  | c :: rest =>
      if sep.isPrefixOf (c :: rest) then some ([], (c :: rest).drop sep.length)
      else match breakOnFirst sep rest with
        | some (pre, post) => some (c :: pre, post)
        | none => none

/-- The characters of the authority that follow its last `@` (the host
and port, after any userinfo). -/
def afterLastAt (l : List Char) : List Char :=
  l.foldl (fun acc c => if c = '@' then [] else acc ++ [c]) []

/-- Embedding of `new URL(...)` restricted to what the constructor reads:
for inputs of the shape `scheme://[userinfo@]host[:port][/path…]` it
yields the lowercased `protocol` (with the colon) and `hostname`; `none`
models the `TypeError` thrown on inputs without a `://` or with an empty
host. (IPv6 bracket hosts are outside this model.) -/
def parseUrl (s : String) : Option UrlParts :=
  match breakOnFirst "://".data s.data with
  | none => none
  | some (scheme, rest) =>
      if scheme = [] ∨ ¬ scheme.all (fun c => c.isAlpha ∨ isDigitChar c ∨ c = '+' ∨ c = '-' ∨ c = '.') then
        none
      else
        let authority := rest.takeWhile (fun c => ¬ c = '/' ∧ ¬ c = '?' ∧ ¬ c = '#')
        let hostPort := afterLastAt authority
        let hostname := (hostPort.takeWhile (fun c => ¬ c = ':')).map Char.toLower
        if hostname = [] then none
        else some { protocol := String.mk (scheme.map Char.toLower) ++ ":",
                    hostname := String.mk hostname }

/-- Constructor argument: `Partial<HttpClientConfig> & { apiKey: string }`. -/
structure HttpClientConfigInput where
  apiKey : String
  baseUrl : Option String := none
  timeout : Option Int := none
  maxRetries : Option Nat := none

/-- The resolved, immutable `HttpClientConfig`. -/
structure HttpClientConfig where
  apiKey : String
  baseUrl : String
  timeout : Int
  maxRetries : Nat
deriving DecidableEq, Repr

/-- The rate-limit snapshot (`RateLimitInfo` in `src/types.ts`): the
`parseInt` images of the three `X-RateLimit-*` headers. `none` models the
`NaN` a non-numeric header value would produce. -/
structure RateLimitInfo where
  limit : Option Int
  remaining : Option Int
  reset : Option Int
deriving DecidableEq, Repr

/-- The `HttpClient` instance state: the immutable config plus the
mutable rate-limit snapshot (`undefined` until first written). -/
structure HttpClient where
  config : HttpClientConfig
  rateLimitInfo : Option RateLimitInfo
deriving DecidableEq, Repr

/-- Default resolution in the constructor: `baseUrl` and `timeout` use
JavaScript `||` (empty string / 0 fall back), `maxRetries` uses `??`
(only `undefined` falls back, so an explicit 0 is kept). -/
def resolveConfig (input : HttpClientConfigInput) : HttpClientConfig :=
  { apiKey := input.apiKey,
    baseUrl := match input.baseUrl with
      | none => "https://sendly.live/api/"
      | some s => jsOrStr s "https://sendly.live/api/",
    timeout := match input.timeout with
      | none => 30000
      | some t => if t = 0 then 30000 else t,
    maxRetries := input.maxRetries.getD 3 }

/-- Whether `needle` occurs as a contiguous run inside the second list
(`String.prototype.includes`). -/
def containsSub (needle : List Char) : List Char → Bool
  | [] => needle.isPrefixOf ([] : List Char)
  | c :: rest => needle.isPrefixOf (c :: rest) || containsSub needle rest

/-- `hostname.includes("localhost")` — a substring test, not equality. -/
def hostIncludesLocalhost (hostname : String) : Bool :=
  containsSub "localhost".data hostname.data

/-- The `HttpClient` constructor: resolves defaults, validates the API
key shape, then requires `https:` unless the hostname contains
`localhost` or equals `127.0.0.1`; `.error` models the thrown `Error`
with its message, and a fresh client has no rate-limit snapshot. -/
def HttpClient.construct (input : HttpClientConfigInput) : Except String HttpClient :=
  let config := resolveConfig input
  if ¬ isValidApiKey config.apiKey then
    Except.error "Invalid API key format. Expected sk_test_v1_xxx or sk_live_v1_xxx"
  else
    match parseUrl config.baseUrl with
    | none => Except.error "Invalid URL"
    | some u =>
        if u.protocol ≠ "https:" ∧ hostIncludesLocalhost u.hostname = false ∧
            u.hostname ≠ "127.0.0.1" then
          Except.error "API key must only be transmitted over HTTPS. Use https:// or localhost for development."
        else
          Except.ok { config := config, rateLimitInfo := none }

/-- `getRateLimitInfo()`. -/
def HttpClient.getRateLimitInfo (c : HttpClient) : Option RateLimitInfo :=
  c.rateLimitInfo

/-- `isTestMode()`: whether the API key starts with `sk_test_`. -/
def HttpClient.isTestMode (c : HttpClient) : Bool :=
  c.config.apiKey.startsWith "sk_test_"

/-! ## The request loop (`HttpClient.request`) -/

/-- A transport-level response as the retry loop observes it: the HTTP
status, the three rate-limit headers (absent = `none`), and the parsed
body viewed through the error-response fields (the only part of a body
the loop itself inspects). -/
structure HttpResponseRep where
  status : Nat
  rlLimit : Option String := none
  rlRemaining : Option String := none
  rlReset : Option String := none
  body : ApiErrorResponse := {}
deriving DecidableEq, Repr

/-- Outcome of one `fetch` inside `executeRequest`: a response, an abort
by the attempt's timeout (`AbortError`), or any other transport failure
with its message. -/
inductive TransportResult where
  | resp (r : HttpResponseRep)
  | timeoutFailure
  | networkFailure (msg : String)

/-- `updateRateLimitInfo`: overwrite the snapshot only when all three
headers are present and non-empty (JavaScript truthiness of
`headers.get(...)`), parsing each with `parseInt(·, 10)`. -/
def updateRateLimitInfo (rl : Option RateLimitInfo) (r : HttpResponseRep) :
    Option RateLimitInfo :=
  if jsTruthyStr r.rlLimit ∧ jsTruthyStr r.rlRemaining ∧ jsTruthyStr r.rlReset then
    some { limit := parseIntJs (r.rlLimit.getD ""),
           remaining := parseIntJs (r.rlRemaining.getD ""),
           reset := parseIntJs (r.rlReset.getD "") }
  else rl

/-- The body normalization in `parseResponse` before classification:
`error` falls back to `internal_error` and `message` to `HTTP <status>`
(JavaScript `||`). -/
def normalizeErrorBody (status : Nat) (b : ApiErrorResponse) : ApiErrorResponse :=
  { b with error := jsOrStr b.error "internal_error",
           message := jsOrStr b.message ("HTTP " ++ toString status) }

/-- `parseResponse`: a 2xx response returns its parsed body; anything
else throws the classified `SendlyError` built from the normalized
body. -/
def parseResponseModel (r : HttpResponseRep) : Except SendlyError ApiErrorResponse :=
  if 200 ≤ r.status ∧ r.status ≤ 299 then Except.ok r.body
  else Except.error (SendlyError.fromResponse r.status (normalizeErrorBody r.status r.body))

/-- What the `catch` block of `request` decides for a thrown error:
surface it (`fail`), sleep `retryAfter` seconds then retry
(`sleepRetry`, rate-limit errors with attempts left), or sleep the
exponential backoff then retry (`backoffRetry`). -/
inductive RetryDecision where
  | fail
  | sleepRetry (ms : Int)
  | backoffRetry
deriving DecidableEq, Repr

/-- The `catch` block of `HttpClient.request`, in source order: never
retry statuses 401/403, then 400/404, then 402; rate-limit errors retry
after `retryAfter * 1000` ms while attempts remain; everything else
retries with backoff while attempts remain. (Every error reaching the
block is a `SendlyError` in this model, as in the source, where
`executeRequest` and `parseResponse` only throw `SendlyError`s.)
Surfacing on the last attempt and falling out of the loop to
`throw lastError` both surface the same error, merged into `fail`. -/
def retryDecision (maxRetries attempt : Nat) (e : SendlyError) : RetryDecision :=
  if e.statusCode = some 401 ∨ e.statusCode = some 403 then .fail
  else if e.statusCode = some 400 ∨ e.statusCode = some 404 then .fail
  else if e.statusCode = some 402 then .fail
  else
    match e with
    | .rateLimit _ retryAfter _ _ =>
        if attempt < maxRetries then .sleepRetry (retryAfter * 1000) else .fail
    | _ => if attempt < maxRetries then .backoffRetry else .fail

/-- `calculateBackoff`: `min(2^attempt * 1000 + jitter, 30000)` with the
attempt's `Math.random() * 500` jitter passed in explicitly. -/
def calculateBackoff (attempt : Nat) (jitterMs : Nat) : Int :=
  min ((2 : Int) ^ attempt * 1000 + (jitterMs : Int)) 30000

/-- One attempt: run the transport, fold its failure modes into
`TimeoutError` / `NetworkError`, update the snapshot from a response's
headers (errors included — the update precedes `parseResponse`), then
parse. -/
def attemptOnce (cfg : HttpClientConfig) (tr : TransportResult)
    (rl : Option RateLimitInfo) :
    Option RateLimitInfo × Except SendlyError ApiErrorResponse :=
  match tr with
  | .timeoutFailure =>
      (rl, Except.error (SendlyError.timeout
        ("Request timed out after " ++ toString cfg.timeout ++ "ms")))
  | .networkFailure msg =>
      (rl, Except.error (SendlyError.network ("Network request failed: " ++ msg)))
  | .resp r => (updateRateLimitInfo rl r, parseResponseModel r)

/-- Aggregate observable outcome of one call to `request`: how many times
the transport ran, the sleeps performed between attempts (ms), the final
rate-limit snapshot, and the returned body or surfaced error. -/
structure RequestOutcome where
  calls : Nat
  sleeps : List Int
  rateLimitInfo : Option RateLimitInfo
  result : Except SendlyError ApiErrorResponse
deriving Repr

/-- The `for (attempt = 0; attempt <= maxRetries; attempt++)` loop of
`request`, structurally recursive on the remaining attempts (`fuel`,
`maxRetries + 1` at entry). Exhausted fuel models falling out of the
loop: `throw lastError || new NetworkError("Request failed after
retries")`. The transport is indexed by the attempt number; `jitter n`
is the attempt's `Math.random() * 500` draw. -/
def requestAux (cfg : HttpClientConfig) (transport : Nat → TransportResult)
    (jitter : Nat → Nat) :
    Nat → Nat → Nat → List Int → Option RateLimitInfo → Option SendlyError →
      RequestOutcome
  | 0, _attempt, calls, sleeps, rl, lastError =>
      { calls := calls, sleeps := sleeps, rateLimitInfo := rl,
        result := Except.error
          (lastError.getD (SendlyError.network "Request failed after retries")) }
  | fuel + 1, attempt, calls, sleeps, rl, _lastError =>
      match attemptOnce cfg (transport attempt) rl with
      | (rl', Except.ok data) =>
          { calls := calls + 1, sleeps := sleeps, rateLimitInfo := rl',
            result := Except.ok data }
      | (rl', Except.error e) =>
          match retryDecision cfg.maxRetries attempt e with
          | .fail =>
              { calls := calls + 1, sleeps := sleeps, rateLimitInfo := rl',
                result := Except.error e }
          | .sleepRetry ms =>
              requestAux cfg transport jitter fuel (attempt + 1) (calls + 1)
                (sleeps ++ [ms]) rl' (some e)
          | .backoffRetry =>
              requestAux cfg transport jitter fuel (attempt + 1) (calls + 1)
                (sleeps ++ [calculateBackoff attempt (jitter attempt)]) rl' (some e)

/-- `HttpClient.request`: run the loop with `1 + maxRetries` available
attempts from the client's current snapshot. -/
def HttpClient.request (c : HttpClient) (transport : Nat → TransportResult)
    (jitter : Nat → Nat) : RequestOutcome :=
  requestAux c.config transport jitter (c.config.maxRetries + 1) 0 0 [] c.rateLimitInfo none

/-- The client as it stands after a call to `request` (the snapshot is
the only instance state a request writes). -/
def HttpClient.afterRequest (c : HttpClient) (transport : Nat → TransportResult)
    (jitter : Nat → Nat) : HttpClient :=
  { c with rateLimitInfo := (c.request transport jitter).rateLimitInfo }

/-! ## Bytes, UTF-8 and SHA-256 (the `node:crypto` primitives used by
`src/utils/webhooks.ts`) -/

/-- UTF-8 encoding of one character (code points, standard 1–4 byte
forms). `Buffer.from(string)` and `hmac.update(string)` encode as
UTF-8. -/
def utf8EncodeChar (c : Char) : List Nat :=
  let n := c.toNat
  if n < 128 then [n]
  else if n < 2048 then [192 + n / 64, 128 + n % 64]
  else if n < 65536 then [224 + n / 4096, 128 + (n / 64) % 64, 128 + n % 64]
  else [240 + n / 262144, 128 + (n / 4096) % 64, 128 + (n / 64) % 64, 128 + n % 64]

/-- UTF-8 encoding of a string as a byte list. -/
def utf8Encode (s : String) : List Nat :=
  s.data.foldr (fun c acc => utf8EncodeChar c ++ acc) []

/-- Addition of 32-bit words. -/
def add32 (a b : Nat) : Nat := (a + b) % 4294967296

/-- Right rotation of a 32-bit word. -/
def rotr32 (n x : Nat) : Nat :=
  Nat.lor (x >>> n) ((x <<< (32 - n)) % 4294967296)

/-- Bitwise complement of a 32-bit word. -/
def not32 (x : Nat) : Nat := Nat.xor x 4294967295

/-- `Ch(x,y,z)` (FIPS 180-4). -/
def chFun (x y z : Nat) : Nat :=
  Nat.xor (Nat.land x y) (Nat.land (not32 x) z)

/-- `Maj(x,y,z)` (FIPS 180-4). -/
def majFun (x y z : Nat) : Nat :=
  Nat.xor (Nat.land x y) (Nat.xor (Nat.land x z) (Nat.land y z))

/-- `Σ₀`. -/
def bigSigma0 (x : Nat) : Nat := Nat.xor (rotr32 2 x) (Nat.xor (rotr32 13 x) (rotr32 22 x))

/-- `Σ₁`. -/
def bigSigma1 (x : Nat) : Nat := Nat.xor (rotr32 6 x) (Nat.xor (rotr32 11 x) (rotr32 25 x))

/-- `σ₀`. -/
def smallSigma0 (x : Nat) : Nat := Nat.xor (rotr32 7 x) (Nat.xor (rotr32 18 x) (x >>> 3))

/-- `σ₁`. -/
def smallSigma1 (x : Nat) : Nat := Nat.xor (rotr32 17 x) (Nat.xor (rotr32 19 x) (x >>> 10))

/-- The 64 SHA-256 round constants (FIPS 180-4, written in decimal). -/
def sha256K : List Nat :=
  [1116352408, 1899447441, 3049323471, 3921009573,
   961987163, 1508970993, 2453635748, 2870763221,
   3624381080, 310598401, 607225278, 1426881987,
   1925078388, 2162078206, 2614888103, 3248222580,
   3835390401, 4022224774, 264347078, 604807628,
   770255983, 1249150122, 1555081692, 1996064986,
   2554220882, 2821834349, 2952996808, 3210313671,
   3336571891, 3584528711, 113926993, 338241895,
   666307205, 773529912, 1294757372, 1396182291,
   1695183700, 1986661051, 2177026350, 2456956037,
   2730485921, 2820302411, 3259730800, 3345764771,
   3516065817, 3600352804, 4094571909, 275423344,
   430227734, 506948616, 659060556, 883997877,
   958139571, 1322822218, 1537002063, 1747873779,
   1955562222, 2024104815, 2227730452, 2361852424,
   2428436474, 2756734187, 3204031479, 3329325298]

/-- The eight SHA-256 initial hash values (FIPS 180-4, in decimal). -/
def sha256H0 : List Nat :=
  [1779033703, 3144134277, 1013904242, 2773480762,
   1359893119, 2600822924, 528734635, 1541459225]

/-- Big-endian serialization of `n` into `k` bytes. -/
def toBytesBE : Nat → Nat → List Nat
  | 0, _ => []
  | k + 1, n => toBytesBE k (n / 256) ++ [n % 256]

/-- SHA-256 padding: `0x80`, zeros to 56 mod 64, then the 64-bit
big-endian bit length. -/
def padMessage (msg : List Nat) : List Nat :=
  let zeros := (64 - (msg.length + 9) % 64) % 64
  msg ++ [128] ++ List.replicate zeros 0 ++ toBytesBE 8 (msg.length * 8)

/-- Big-endian 4-byte grouping of a byte list into 32-bit words. -/
def bytesToWords : List Nat → List Nat
  | b0 :: b1 :: b2 :: b3 :: rest =>
      (((b0 * 256 + b1) * 256 + b2) * 256 + b3) :: bytesToWords rest
  | _ => []

/-- The 64-entry message schedule extended from a 16-word block. -/
def scheduleW (w16 : List Nat) : List Nat :=
  (List.range 64).foldl
    (fun acc i =>
      if i < 16 then acc ++ [w16.getD i 0]
      else acc ++ [add32 (add32 (smallSigma1 (acc.getD (i - 2) 0)) (acc.getD (i - 7) 0))
        (add32 (smallSigma0 (acc.getD (i - 15) 0)) (acc.getD (i - 16) 0))])
    []

/-- One compression round on the 8-word working state. -/
def roundFn (st : List Nat) (k w : Nat) : List Nat :=
  match st with
  | [a, b, c, d, e, f, g, h] =>
      let t1 := add32 h (add32 (bigSigma1 e) (add32 (chFun e f g) (add32 k w)))
      let t2 := add32 (bigSigma0 a) (majFun a b c)
      [add32 t1 t2, a, b, c, add32 d t1, e, f, g]
  | other => other

/-- Compress one 16-word block into the hash state. -/
def processBlock (h : List Nat) (block : List Nat) : List Nat :=
  let w := scheduleW block
  let st := (List.range 64).foldl
    (fun st i => roundFn st (sha256K.getD i 0) (w.getD i 0)) h
  List.zipWith add32 h st

/-- Fold the padded message, 64 bytes at a time, through the compression
function. -/
def processBlocks (h : List Nat) (bytes : List Nat) : List Nat :=
  if hb : bytes = [] then h
  else processBlocks (processBlock h (bytesToWords (bytes.take 64))) (bytes.drop 64)
termination_by bytes.length
decreasing_by
  have : 0 < bytes.length := List.length_pos.2 hb
  simp
  omega

/-- SHA-256 of a byte list, as 32 digest bytes. -/
def sha256Bytes (msg : List Nat) : List Nat :=
  (processBlocks sha256H0 (padMessage msg)).foldr
    (fun w acc => toBytesBE 4 w ++ acc) []

/-- HMAC-SHA256 (FIPS 198-1, block size 64): hash an over-long key, zero
pad, XOR with the `0x36`/`0x5c` pads, and nest two hashes. -/
def hmacSha256 (key msg : List Nat) : List Nat :=
  let k0 := if 64 < key.length then sha256Bytes key else key
  let kp := k0 ++ List.replicate (64 - k0.length) 0
  let inner := sha256Bytes ((kp.map (fun b => Nat.xor b 54)) ++ msg)
  sha256Bytes ((kp.map (fun b => Nat.xor b 92)) ++ inner)

/-- Lowercase hex digit. -/
def hexDigit (n : Nat) : Char :=
  if n < 10 then Char.ofNat (48 + n) else Char.ofNat (87 + n)

/-- Lowercase hex rendering of a byte list (`digest("hex")`). -/
def bytesToHex (bs : List Nat) : String :=
  String.mk (bs.foldr (fun b acc => hexDigit (b / 16) :: hexDigit (b % 16) :: acc) [])

/-! ## Webhook signatures (`src/utils/webhooks.ts`) -/

/-- `generateWebhookSignature`: `"sha256=" + hmacSha256(secret, payload)`
in lowercase hex, both strings UTF-8 encoded. -/
def generateWebhookSignature (payload secret : String) : String :=
  "sha256=" ++ bytesToHex (hmacSha256 (utf8Encode secret) (utf8Encode payload))

/-- `crypto.timingSafeEqual(Buffer.from(a), Buffer.from(b))` wrapped in
the `try`/`catch` of `verifyWebhookSignature`: buffers of different byte
lengths throw (caught → `false`); equal-length buffers compare bytewise,
and byte equality of UTF-8 encodings coincides with string equality
(UTF-8 is injective on Unicode scalar sequences, which Lean strings
are). -/
def timingSafeEqualStr (a b : String) : Bool :=
  if (utf8Encode a).length = (utf8Encode b).length then a == b else false

/-- `verifyWebhookSignature` from `src/utils/webhooks.ts`. The ambient
clock (`Date.now() / 1000`, floored) is the explicit `now` parameter;
the source's default tolerance of 300 s is passed explicitly by callers
in this model. An empty payload, signature, or secret fails first; a
JavaScript-falsy timestamp (absent or empty) skips the timestamp path
entirely (both `if (timestamp)` and the `timestamp ? … : payload`
template use the same truthiness). -/
def verifyWebhookSignature (payload signature secret : String)
    (timestamp : Option String) (toleranceSeconds : Int) (now : Int) : Bool :=
  if payload = "" ∨ signature = "" ∨ secret = "" then false
  else
    match timestamp with
    | some ts =>
        if ts = "" then
          timingSafeEqualStr signature (generateWebhookSignature payload secret)
        else
          match parseIntJs ts with
          | none => false
          | some t =>
              if toleranceSeconds < ((now - t).natAbs : Int) then false
              else timingSafeEqualStr signature
                (generateWebhookSignature (ts ++ "." ++ payload) secret)
    | none => timingSafeEqualStr signature (generateWebhookSignature payload secret)

/-! ## A model of `JSON.parse` -/

/-- Parsed JSON values. A number is kept exactly as
`mantissa * 10 ^ exp10` (double rounding is outside this model; the
payloads of interest carry small integers). -/
inductive Json where
  | null
  | bool (b : Bool)
  | num (mantissa : Int) (exp10 : Int)
  | str (s : String)
  | arr (elems : List Json)
  | obj (fields : List (String × Json))

/-- JSON insignificant whitespace. -/
def jsonWs (c : Char) : Bool :=
  c = ' ' ∨ c = '\t' ∨ c = '\n' ∨ c = '\r'

/-- Skip insignificant whitespace. -/
def skipWs (cs : List Char) : List Char :=
  cs.dropWhile jsonWs

/-- Value of one hex digit, `none` otherwise. -/
def hexVal (c : Char) : Option Nat :=
  if 48 ≤ c.toNat ∧ c.toNat ≤ 57 then some (c.toNat - 48)
  else if 97 ≤ c.toNat ∧ c.toNat ≤ 102 then some (c.toNat - 87)
  else if 65 ≤ c.toNat ∧ c.toNat ≤ 70 then some (c.toNat - 55)
  else none

/-- Body of a JSON string after the opening quote: content characters
until the closing quote, handling the JSON escapes. A `\uXXXX` high
surrogate followed by a low surrogate combines into one supplementary
code point; a lone surrogate (unrepresentable as a Lean `Char`) maps to
U+FFFD, a boundary of this model. Unescaped control characters are
rejected as in strict JSON. -/
def parseStringBody : Nat → List Char → Option (List Char × List Char)
  | 0, _ => none
  | _ + 1, [] => none
  | _ + 1, '"' :: rest => some ([], rest)
  | fuel + 1, '\\' :: e :: rest =>
      if e = 'u' then
        match rest with
        | h1 :: h2 :: h3 :: h4 :: rest2 => do
            let v1 ← hexVal h1
            let v2 ← hexVal h2
            let v3 ← hexVal h3
            let v4 ← hexVal h4
            let code := ((v1 * 16 + v2) * 16 + v3) * 16 + v4
            if 55296 ≤ code ∧ code ≤ 56319 then
              match rest2 with
              | '\\' :: 'u' :: k1 :: k2 :: k3 :: k4 :: rest3 => do
                  let w1 ← hexVal k1
                  let w2 ← hexVal k2
                  let w3 ← hexVal k3
                  let w4 ← hexVal k4
                  let low := ((w1 * 16 + w2) * 16 + w3) * 16 + w4
                  if 56320 ≤ low ∧ low ≤ 57343 then
                    let scalar := 65536 + (code - 55296) * 1024 + (low - 56320)
                    let (tail, rest4) ← parseStringBody fuel rest3
                    some (Char.ofNat scalar :: tail, rest4)
                  else do
                    let (tail, rest4) ← parseStringBody fuel rest2
                    some (Char.ofNat 65533 :: tail, rest4)
              | _ => do
                  let (tail, rest4) ← parseStringBody fuel rest2
                  some (Char.ofNat 65533 :: tail, rest4)
            else if 56320 ≤ code ∧ code ≤ 57343 then do
              let (tail, rest4) ← parseStringBody fuel rest2
              some (Char.ofNat 65533 :: tail, rest4)
            else do
              let (tail, rest4) ← parseStringBody fuel rest2
              some (Char.ofNat code :: tail, rest4)
        | _ => none
      else do
        let c ← if e = '"' then some '"'
          else if e = '\\' then some '\\'
          else if e = '/' then some '/'
          else if e = 'b' then some (Char.ofNat 8)
          else if e = 'f' then some (Char.ofNat 12)
          else if e = 'n' then some '\n'
          else if e = 'r' then some '\r'
          else if e = 't' then some '\t'
          else none
        let (tail, rest') ← parseStringBody fuel rest
        some (c :: tail, rest')
  | fuel + 1, c :: rest =>
      if c.toNat < 32 then none
      else do
        let (tail, rest') ← parseStringBody fuel rest
        some (c :: tail, rest')

/-- Integer part of a JSON number: `0`, or a non-zero digit followed by
digits (strict JSON forbids leading zeros). -/
def parseIntPart : List Char → Option (Nat × List Char)
  | '0' :: rest => some (0, rest)
  | c :: rest =>
      if 49 ≤ c.toNat ∧ c.toNat ≤ 57 then
        some (digitsVal ((c :: rest).takeWhile isDigitChar),
          (c :: rest).dropWhile isDigitChar)
      else none
  | [] => none

/-- Optional fraction part: the digits after a `.`, which must be
non-empty when the `.` is present. -/
def parseFrac : List Char → Option (List Char × List Char)
  | '.' :: rest =>
      let ds := rest.takeWhile isDigitChar
      if ds = [] then none else some (ds, rest.dropWhile isDigitChar)
  | cs => some ([], cs)

/-- Optional exponent part as a signed integer (0 when absent). -/
def parseExp : List Char → Option (Int × List Char)
  | c :: rest =>
      if c = 'e' ∨ c = 'E' then
        match rest with
        | '+' :: r2 =>
            let ds := r2.takeWhile isDigitChar
            if ds = [] then none
            else some ((digitsVal ds : Int), r2.dropWhile isDigitChar)
        | '-' :: r2 =>
            let ds := r2.takeWhile isDigitChar
            if ds = [] then none
            else some (-(digitsVal ds : Int), r2.dropWhile isDigitChar)
        | r2 =>
            let ds := r2.takeWhile isDigitChar
            if ds = [] then none
            else some ((digitsVal ds : Int), r2.dropWhile isDigitChar)
      else some (0, c :: rest)
  | [] => some (0, [])

/-- A JSON number: optional `-`, integer part, optional fraction and
exponent, normalized to `mantissa * 10 ^ exp10`. -/
def parseNumber (cs : List Char) : Option (Json × List Char) := do
  let (neg, cs1) := match cs with
    | '-' :: rest => (true, rest)
    | _ => (false, cs)
  let (intVal, cs2) ← parseIntPart cs1
  let (fracDs, cs3) ← parseFrac cs2
  let (expVal, cs4) ← parseExp cs3
  let mantNat := intVal * 10 ^ fracDs.length + digitsVal fracDs
  let mant : Int := if neg then -(mantNat : Int) else (mantNat : Int)
  some (Json.num mant (expVal - fracDs.length), cs4)

mutual

/-- One JSON value (recursive descent; the fuel bounds nesting and is
ample at twice the input length). -/
def parseJsonValue : Nat → List Char → Option (Json × List Char)
  | 0, _ => none
  | fuel + 1, cs =>
      match skipWs cs with
      | 'n' :: 'u' :: 'l' :: 'l' :: rest => some (Json.null, rest)
      | 't' :: 'r' :: 'u' :: 'e' :: rest => some (Json.bool true, rest)
      | 'f' :: 'a' :: 'l' :: 's' :: 'e' :: rest => some (Json.bool false, rest)
      | '"' :: rest => do
          let (chars, rest') ← parseStringBody (fuel + 1) rest
          some (Json.str (String.mk chars), rest')
      | '[' :: rest =>
          (match skipWs rest with
          | ']' :: rest' => some (Json.arr [], rest')
          | cs' => do
              let (elems, rest') ← parseElems fuel cs'
              some (Json.arr elems, rest'))
      | '{' :: rest =>
          (match skipWs rest with
          | '}' :: rest' => some (Json.obj [], rest')
          | cs' => do
              let (fields, rest') ← parseFields fuel cs'
              some (Json.obj fields, rest'))
      | other => parseNumber other

/-- Non-empty `,`-separated element list of an array, including the
closing bracket. -/
def parseElems : Nat → List Char → Option (List Json × List Char)
  | 0, _ => none
  | fuel + 1, cs => do
      let (v, rest) ← parseJsonValue fuel cs
      match skipWs rest with
      | ',' :: rest2 => do
          let (vs, rest3) ← parseElems fuel rest2
          some (v :: vs, rest3)
      | ']' :: rest2 => some ([v], rest2)
      | _ => none

/-- Non-empty `,`-separated member list of an object, including the
closing brace. Duplicate keys are kept in order (lookup takes the last,
as `JSON.parse` does). -/
def parseFields : Nat → List Char → Option (List (String × Json) × List Char)
  | 0, _ => none
  | fuel + 1, cs =>
      match skipWs cs with
      | '"' :: rest => do
          let (kchars, rest1) ← parseStringBody (fuel + 1) rest
          match skipWs rest1 with
          | ':' :: rest2 => do
              let (v, rest3) ← parseJsonValue fuel rest2
              match skipWs rest3 with
              | ',' :: rest4 => do
                  let (fs, rest5) ← parseFields fuel rest4
                  some ((String.mk kchars, v) :: fs, rest5)
              | '}' :: rest4 => some ([(String.mk kchars, v)], rest4)
              | _ => none
          | _ => none
      | _ => none

end

/-- `JSON.parse`: one value surrounded by optional whitespace; anything
left over is a syntax error (`none`, modelling the thrown
`SyntaxError`). -/
def jsonParse (s : String) : Option Json := do
  let (v, rest) ← parseJsonValue (2 * s.data.length + 2) s.data
  if skipWs rest = [] then some v else none

/-! ## Webhook event parsing -/

/-- The JavaScript error values `parseWebhookEvent` can throw: a
`WebhookSignatureError`, a plain `Error`, or the `TypeError` of a
property read on `null`. -/
inductive JsError where
  | webhookSignatureError (msg : String)
  | error (msg : String)
  | typeError (msg : String)
deriving DecidableEq, Repr

/-- Property lookup on a parsed JSON value: `undefined` (`none`) unless
the value is an object with the key; duplicate keys resolve to the last
occurrence. -/
def Json.getField : Json → String → Option Json
  | .obj fields, k =>
      fields.foldl (fun acc kv => if kv.1 = k then some kv.2 else acc) none
  | _, _ => none

/-- JavaScript truthiness of a parsed JSON value (`NaN` cannot arise
from `JSON.parse`). -/
def jsTruthy : Json → Bool
  | .null => false
  | .bool b => b
  | .num m _ => m ≠ 0
  | .str s => s ≠ ""
  | .arr _ => true
  | .obj _ => true

/-- Truthiness of `v.k` (an absent property is `undefined`, falsy). -/
def truthyField (v : Json) (k : String) : Bool :=
  match v.getField k with
  | none => false
  | some f => jsTruthy f

/-- Truthiness of `v.data?.object`: optional chaining yields `undefined`
when `data` is null or absent; otherwise an ordinary property read. -/
def dataObjectTruthy (v : Json) : Bool :=
  match v.getField "data" with
  | none => false
  | some .null => false
  | some d =>
      match d.getField "object" with
      | none => false
      | some o => jsTruthy o

/-- The structural validation of `parseWebhookEvent`:
`!event.id || !event.type || !event.created || !event.data?.object`
throws a plain `Error`; reading `.id` on a parsed `null` throws a
`TypeError`. -/
def structureCheck (event : Json) : Except JsError Json :=
  match event with
  | .null => Except.error (.typeError "Cannot read properties of null (reading 'id')")
  | v =>
      if ¬ truthyField v "id" = true ∨ ¬ truthyField v "type" = true ∨
          ¬ truthyField v "created" = true ∨ dataObjectTruthy v = false then
        Except.error (.error "Invalid webhook event structure")
      else Except.ok v

/-- `parseWebhookEvent` from `src/utils/webhooks.ts`: verify the
signature (tolerance 300 s) or throw a `WebhookSignatureError`; parse the
payload as JSON or throw a plain `Error`; check the required structural
fields or throw a plain `Error`; otherwise return the parsed event. -/
def parseWebhookEvent (payload signature secret : String)
    (timestamp : Option String) (now : Int) : Except JsError Json :=
  if verifyWebhookSignature payload signature secret timestamp 300 now = false then
    Except.error (.webhookSignatureError "Invalid webhook signature")
  else
    match jsonParse payload with
    | none => Except.error (.error "Failed to parse webhook payload")
    | some event => structureCheck event

/-! # Theorems -/

/-! ## Helper lemmas -/

/-- Characters with equal code points are equal. -/
theorem char_eq_of_toNat_eq {a b : Char} (h : a.toNat = b.toNat) : a = b :=
  Char.eq_of_val_eq (by ext; simpa [Char.toNat] using h)

theorem add_pred_div_eq_ceilNat_153 (a : Nat) : (a + 153 - 1) / 153 = ceilNat a 153 := by
  unfold ceilNat
  rcases Nat.eq_zero_or_pos (a % 153) with h0 | h0
  · simp [h0]; omega
  · simp [Nat.ne_of_gt h0]; omega

theorem add_pred_div_eq_ceilNat_67 (a : Nat) : (a + 67 - 1) / 67 = ceilNat a 67 := by
  unfold ceilNat
  rcases Nat.eq_zero_or_pos (a % 67) with h0 | h0
  · simp [h0]; omega
  · simp [Nat.ne_of_gt h0]; omega

/-! ## C7 — segment calculation -/

set_option maxRecDepth 20000 in
/-- Claim C7: for every text string, `calculateSegments` uses the GSM
limits (160 single-segment, 153 per segment) exactly when every character
is 7-bit ASCII and the UCS-2 limits (70, 67) otherwise, returning 1 when
the length is at most the single-segment limit and the ceiling of
`length / capacity` otherwise; in particular the empty string gives 1
segment, 160 ASCII characters give 1, 161 ASCII characters give 2, and a
71-character string with one non-ASCII code point gives 2. -/
theorem calculateSegments_matches_spec :
    (∀ text : String, calculateSegments text = segmentsSpec text) ∧
    calculateSegments "" = 1 ∧
    calculateSegments (String.mk (List.replicate 160 'A')) = 1 ∧
    calculateSegments (String.mk (List.replicate 161 'A')) = 2 ∧
    calculateSegments (String.mk (List.replicate 70 'A' ++ ['é'])) = 2 := by
  refine ⟨?_, by rfl, by rfl, by rfl, by rfl⟩
  intro text
  unfold calculateSegments segmentsSpec
  by_cases hA : ∀ c ∈ text.data, c.toNat ≤ 127
  · have hany : (text.data.any fun c => ¬ c.toNat ≤ 127) = false := by
      simp only [List.any_eq_false, decide_eq_true_eq, not_not]
      exact fun c hc => hA c hc
    rw [if_pos hA, hany]
    simp only [Bool.false_eq_true, if_false]
    by_cases hlen : jsLength text ≤ 160
    · rw [if_pos hlen, if_pos hlen]
    · rw [if_neg hlen, if_neg hlen, add_pred_div_eq_ceilNat_153]
  · have hany : (text.data.any fun c => ¬ c.toNat ≤ 127) = true := by
      simp only [List.any_eq_true, decide_eq_true_eq, not_le]
      push_neg at hA
      exact hA
    rw [if_neg hA, hany]
    simp only [if_true]
    by_cases hlen : jsLength text ≤ 70
    · rw [if_pos hlen, if_pos hlen]
    · rw [if_neg hlen, if_neg hlen, add_pred_div_eq_ceilNat_67]

/-! ## C6 — phone number validation -/

/-- Claim C6 counterexample: the string `+7` has the `+` prefix followed
by one digit whose first digit is non-zero, yet `validatePhoneNumber`
fails on it (the regex `/^\+[1-9]\d{1,14}$/` demands at least two
digits), contradicting the claim that 1 to 15 digits are accepted. -/
theorem validatePhoneNumber_rejects_single_digit :
    validatePhoneNumber "+7" =
      Except.error "Invalid phone number format: +7. Expected E.164 format (e.g., +15551234567)" := by
  rfl

/-- Claim C6 (amended): for every string of the form `+` followed by 2 to
15 digits whose first digit is non-zero, `validatePhoneNumber` does not
fail; for every string lacking the `+` prefix or containing a non-digit
character after it, `validatePhoneNumber` fails with a Validation
error. -/
theorem validatePhoneNumber_characterization :
    (∀ (d : Char) (ds : List Char),
        isDigitChar d = true → d ≠ '0' → ds.all isDigitChar = true →
        1 ≤ ds.length → ds.length ≤ 14 →
        validatePhoneNumber (String.mk ('+' :: d :: ds)) = Except.ok ()) ∧
    (∀ p : String, p.data.head? ≠ some '+' →
        ∃ msg, validatePhoneNumber p = Except.error msg) ∧
    (∀ (p : String) (c : Char), c ∈ p.data.drop 1 → isDigitChar c = false →
        ∃ msg, validatePhoneNumber p = Except.error msg) := by
  refine ⟨?_, ?_, ?_⟩
  · intro d ds hd hd0 hds h1 h14
    have hmk : (String.mk ('+' :: d :: ds)) ≠ "" := by
      simp [String.ext_iff]
    have hdn : 48 ≤ d.toNat ∧ d.toNat ≤ 57 := by
      simpa [isDigitChar] using hd
    have hne48 : d.toNat ≠ 48 := by
      intro h
      exact hd0 (char_eq_of_toNat_eq (by simpa using h))
    have htest : e164Test ('+' :: d :: ds) = true :=
      decide_eq_true ⟨rfl, ⟨by omega, hdn.2⟩, h1, h14, hds⟩
    unfold validatePhoneNumber
    rw [if_neg hmk]
    simp only [String.data]
    rw [htest]
    simp
  · intro p hp
    by_cases hemp : p = ""
    · exact ⟨"Phone number is required", by simp [validatePhoneNumber, hemp]⟩
    · refine ⟨"Invalid phone number format: " ++ p ++
        ". Expected E.164 format (e.g., +15551234567)", ?_⟩
      unfold validatePhoneNumber
      rw [if_neg hemp]
      have htest : e164Test p.data = false := by
        match hdata : p.data with
        | [] => rfl
        | c0 :: tail =>
          have hc0 : c0 ≠ '+' := by
            intro h
            rw [hdata, h] at hp
            simp at hp
          match tail with
          | [] => rfl
          | c1 :: rest => simp [e164Test, hc0]
      rw [htest]
      simp
  · intro p c hc hcd
    by_cases hemp : p = ""
    · exact ⟨"Phone number is required", by simp [validatePhoneNumber, hemp]⟩
    · refine ⟨"Invalid phone number format: " ++ p ++
        ". Expected E.164 format (e.g., +15551234567)", ?_⟩
      unfold validatePhoneNumber
      rw [if_neg hemp]
      have htest : e164Test p.data = false := by
        match hdata : p.data with
        | [] => rfl
        | c0 :: tail =>
          rw [hdata] at hc
          simp only [List.drop_succ_cons, List.drop_zero] at hc
          match tail with
          | [] => simp at hc
          | c1 :: rest =>
            simp only [e164Test, decide_eq_true_eq]
            rcases List.mem_cons.mp hc with hceq | hcrest
            · have hno : ¬ (49 ≤ c1.toNat ∧ c1.toNat ≤ 57) := by
                subst hceq
                simp only [isDigitChar] at hcd
                intro hcontra
                have := of_decide_eq_false hcd
                omega
              simp only [decide_eq_false_iff_not]
              exact fun hcontra => hno hcontra.2.1
            · have hall : rest.all isDigitChar = false := by
                rw [List.all_eq_false]
                exact ⟨c, hcrest, by simp [hcd]⟩
              simp only [decide_eq_false_iff_not]
              intro hcontra
              rw [hall] at hcontra
              exact absurd hcontra.2.2.2.2 (by simp)
      rw [htest]
      simp

/-! ## C4 — error classification -/

/-- The HTTP status recorded by the classifier is always the status it
was given, whatever the body. -/
theorem statusCode_fromResponse (s : Nat) (r : ApiErrorResponse) :
    (SendlyError.fromResponse s r).statusCode = some s := by
  simp only [SendlyError.fromResponse]
  split_ifs <;> rfl

/-- Claim C4: `SendlyError.fromResponse` is a total deterministic
function of the status code and parsed body — it is defined on every
input, equal inputs give equal typed errors, and every code outside the
recognized set yields the base (`Generic`) variant preserving that
code. -/
theorem fromResponse_total_deterministic :
    (∀ (s s' : Nat) (r r' : ApiErrorResponse), s = s' → r = r' →
        SendlyError.fromResponse s r = SendlyError.fromResponse s' r') ∧
    (∀ (s : Nat) (r : ApiErrorResponse), ∃! e, SendlyError.fromResponse s r = e) ∧
    (∀ (s : Nat) (r : ApiErrorResponse),
        jsOrStr r.error "internal_error" ∉ recognizedCodes →
        SendlyError.fromResponse s r =
          SendlyError.base (jsOrStr r.message "An unknown error occurred")
            (jsOrStr r.error "internal_error") (some s) (some r)) := by
  refine ⟨fun s s' r r' hs hr => by rw [hs, hr],
    fun s r => ⟨SendlyError.fromResponse s r, rfl, fun e he => he.symm⟩, ?_⟩
  intro s r h
  simp only [SendlyError.fromResponse]
  rw [if_neg (fun hmem => h (List.mem_append_left _ hmem))]
  rw [if_neg (fun he => h (by rw [he]; decide))]
  rw [if_neg (fun he => h (by rw [he]; decide))]
  rw [if_neg (fun he => h (by rcases he with h1 | h1 <;> rw [h1] <;> decide))]
  rw [if_neg (fun he => h (by rw [he]; decide))]

/-- Witness for the C4 theorem at a concrete unrecognized code: status
418 with code `teapot` classifies to the base variant preserving the
code and status. -/
theorem fromResponse_total_deterministic_witness :
    SendlyError.fromResponse 418 { error := "teapot", message := "short" } =
      SendlyError.base "short" "teapot" (some 418)
        (some { error := "teapot", message := "short" }) := by
  have h := fromResponse_total_deterministic.2.2 418
    { error := "teapot", message := "short" } (by decide)
  simpa [jsOrStr] using h

/-! ## C2 — construction-time transport security check -/

/-- Claim C2 counterexample: `http://localhost.attacker.example` has an
insecure scheme and a host that is neither `localhost` nor `127.0.0.1`,
yet construction succeeds, because the source tests
`hostname.includes("localhost")` — a substring check. -/
theorem construct_accepts_insecure_nonloopback_host :
    parseUrl "http://localhost.attacker.example" =
      some { protocol := "http:", hostname := "localhost.attacker.example" } ∧
    ("localhost.attacker.example" : String) ≠ "localhost" ∧
    ("localhost.attacker.example" : String) ≠ "127.0.0.1" ∧
    (HttpClient.construct { apiKey := "sk_test_v1_abc",
                            baseUrl := some "http://localhost.attacker.example" }).isOk =
      true := by
  refine ⟨by rfl, by decide, by decide, by rfl⟩

/-- Claim C2 (amended): with a valid API key and a parseable base URL,
construction succeeds exactly when the scheme is `https:`, or the
hostname contains `localhost` as a substring, or the hostname is
`127.0.0.1`; otherwise it throws. -/
theorem construct_security_check (input : HttpClientConfigInput) (u : UrlParts)
    (hkey : isValidApiKey (resolveConfig input).apiKey = true)
    (hurl : parseUrl (resolveConfig input).baseUrl = some u) :
    (HttpClient.construct input).isOk = true ↔
      (u.protocol = "https:" ∨ hostIncludesLocalhost u.hostname = true ∨
        u.hostname = "127.0.0.1") := by
  simp only [HttpClient.construct, hkey, hurl, not_true, if_false]
  by_cases hC : u.protocol ≠ "https:" ∧ hostIncludesLocalhost u.hostname = false ∧
      u.hostname ≠ "127.0.0.1"
  · rw [if_pos hC]
    simp only [Except.isOk, Except.toBool]
    constructor
    · intro hfalse
      exact absurd hfalse (by simp)
    · intro hD
      rcases hD with h | h | h
      · exact absurd h hC.1
      · rw [hC.2.1] at h
        exact absurd h (by simp)
      · exact absurd h hC.2.2
  · rw [if_neg hC]
    simp only [Except.isOk, Except.toBool, true_iff]
    push_neg at hC
    by_cases hp : u.protocol = "https:"
    · exact Or.inl hp
    · by_cases hh : hostIncludesLocalhost u.hostname = true
      · exact Or.inr (Or.inl hh)
      · exact Or.inr (Or.inr (hC hp (by simpa using hh)))

/-- Witness for the amended C2 theorem: the spec's own example
`http://localhost:3000` with a valid test key constructs successfully. -/
theorem construct_security_check_witness :
    (HttpClient.construct { apiKey := "sk_test_v1_abc123",
                            baseUrl := some "http://localhost:3000" }).isOk = true :=
  (construct_security_check
      { apiKey := "sk_test_v1_abc123", baseUrl := some "http://localhost:3000" }
      { protocol := "http:", hostname := "localhost" }
      (by rfl) (by rfl)).mpr
    (Or.inr (Or.inl (by rfl)))

/-! ## Retry-loop lemmas -/

/-- Transport statuses the `catch` block never retries. -/
def noRetryStatuses : List Nat := [400, 401, 402, 403, 404]

/-- An error whose status avoids the never-retry statuses is retried
(by either sleep flavour) while attempts remain, and surfaced once they
run out. -/
theorem retryDecision_retryable (mr att : Nat) (e : SendlyError)
    (hsc : ∀ t ∈ noRetryStatuses, e.statusCode ≠ some t) :
    (att < mr →
      retryDecision mr att e = .backoffRetry ∨
        ∃ ms, retryDecision mr att e = .sleepRetry ms) ∧
    (¬ att < mr → retryDecision mr att e = .fail) := by
  have h400 := hsc 400 (by simp [noRetryStatuses])
  have h401 := hsc 401 (by simp [noRetryStatuses])
  have h402 := hsc 402 (by simp [noRetryStatuses])
  have h403 := hsc 403 (by simp [noRetryStatuses])
  have h404 := hsc 404 (by simp [noRetryStatuses])
  unfold retryDecision
  rw [if_neg (by rintro (h | h) <;> [exact h401 h; exact h403 h])]
  rw [if_neg (by rintro (h | h) <;> [exact h400 h; exact h404 h])]
  rw [if_neg h402]
  refine ⟨fun h => ?_, fun h => ?_⟩
  · cases e <;> simp [h]
  · cases e <;> simp [h]

/-- One loop step on an attempt that produced an error. -/
theorem requestAux_succ_error (cfg : HttpClientConfig)
    (transport : Nat → TransportResult) (jitter : Nat → Nat)
    (k attempt calls : Nat) (sleeps : List Int) (rl : Option RateLimitInfo)
    (lastE : Option SendlyError) (rl' : Option RateLimitInfo) (e : SendlyError)
    (h : attemptOnce cfg (transport attempt) rl = (rl', Except.error e)) :
    requestAux cfg transport jitter (k + 1) attempt calls sleeps rl lastE =
      match retryDecision cfg.maxRetries attempt e with
      | .fail =>
          { calls := calls + 1, sleeps := sleeps, rateLimitInfo := rl',
            result := Except.error e }
      | .sleepRetry ms =>
          requestAux cfg transport jitter k (attempt + 1) (calls + 1)
            (sleeps ++ [ms]) rl' (some e)
      | .backoffRetry =>
          requestAux cfg transport jitter k (attempt + 1) (calls + 1)
            (sleeps ++ [calculateBackoff attempt (jitter attempt)]) rl' (some e) := by
  rw [requestAux, h]

/-- One loop step on an attempt that succeeded. -/
theorem requestAux_succ_ok (cfg : HttpClientConfig)
    (transport : Nat → TransportResult) (jitter : Nat → Nat)
    (k attempt calls : Nat) (sleeps : List Int) (rl : Option RateLimitInfo)
    (lastE : Option SendlyError) (rl' : Option RateLimitInfo)
    (data : ApiErrorResponse)
    (h : attemptOnce cfg (transport attempt) rl = (rl', Except.ok data)) :
    requestAux cfg transport jitter (k + 1) attempt calls sleeps rl lastE =
      { calls := calls + 1, sleeps := sleeps, rateLimitInfo := rl',
        result := Except.ok data } := by
  rw [requestAux, h]

/-- Against a transport that always returns the same non-2xx response
whose status is outside the never-retry set, the loop spends all its
fuel, one transport call per unit, and surfaces the classified error. -/
theorem requestAux_const_error (cfg : HttpClientConfig)
    (transport : Nat → TransportResult) (jitter : Nat → Nat)
    (r : HttpResponseRep)
    (htr : ∀ n, transport n = .resp r)
    (hnot2xx : ¬ (200 ≤ r.status ∧ r.status ≤ 299))
    (hs : ∀ t ∈ noRetryStatuses, r.status ≠ t) :
    ∀ fuel attempt calls sleeps rl lastE, 1 ≤ fuel →
      attempt + fuel = cfg.maxRetries + 1 →
      (requestAux cfg transport jitter fuel attempt calls sleeps rl lastE).calls =
          calls + fuel ∧
      (requestAux cfg transport jitter fuel attempt calls sleeps rl lastE).result =
        Except.error
          (SendlyError.fromResponse r.status (normalizeErrorBody r.status r.body)) := by
  intro fuel
  induction fuel with
  | zero =>
      intro attempt calls sleeps rl lastE h1 _
      exact absurd h1 (by omega)
  | succ k ih =>
      intro attempt calls sleeps rl lastE _ hinv
      have hstep : attemptOnce cfg (transport attempt) rl =
          (updateRateLimitInfo rl r, Except.error
            (SendlyError.fromResponse r.status (normalizeErrorBody r.status r.body))) := by
        rw [htr attempt]
        simp [attemptOnce, parseResponseModel, hnot2xx]
      rw [requestAux_succ_error cfg transport jitter k attempt calls sleeps rl lastE _ _ hstep]
      have hscE : ∀ t ∈ noRetryStatuses,
          (SendlyError.fromResponse r.status (normalizeErrorBody r.status r.body)).statusCode ≠
            some t := by
        intro t ht hcontra
        rw [statusCode_fromResponse] at hcontra
        exact hs t ht (Option.some.inj hcontra)
      by_cases hlt : attempt < cfg.maxRetries
      · rcases (retryDecision_retryable cfg.maxRetries attempt _ hscE).1 hlt with hd | ⟨ms, hd⟩
        · rw [hd]
          obtain ⟨hc, hr⟩ := ih (attempt + 1) (calls + 1)
            (sleeps ++ [calculateBackoff attempt (jitter attempt)])
            (updateRateLimitInfo rl r)
            (some (SendlyError.fromResponse r.status (normalizeErrorBody r.status r.body)))
            (by omega) (by omega)
          exact ⟨hc.trans (by omega), hr⟩
        · rw [hd]
          obtain ⟨hc, hr⟩ := ih (attempt + 1) (calls + 1) (sleeps ++ [ms])
            (updateRateLimitInfo rl r)
            (some (SendlyError.fromResponse r.status (normalizeErrorBody r.status r.body)))
            (by omega) (by omega)
          exact ⟨hc.trans (by omega), hr⟩
      · rw [(retryDecision_retryable cfg.maxRetries attempt _ hscE).2 hlt]
        have hk : k = 0 := by omega
        subst hk
        exact ⟨show calls + 1 = calls + (0 + 1) by omega, rfl⟩

/-! ## C1 — retry accounting -/

/-- Claim C1: with `maxRetries = 3`, a transport that always answers with
a 500-class response is invoked exactly 4 times (1 + 3 retries) and the
final classified error is surfaced; a transport that answers 401 is
invoked exactly once. -/
theorem retry_accounting (c : HttpClient) (transport : Nat → TransportResult)
    (jitter : Nat → Nat) (r : HttpResponseRep)
    (hmr : c.config.maxRetries = 3)
    (htr : ∀ n, transport n = .resp r) :
    (500 ≤ r.status → r.status ≤ 599 →
      (c.request transport jitter).calls = 4 ∧
      (c.request transport jitter).result =
        Except.error
          (SendlyError.fromResponse r.status (normalizeErrorBody r.status r.body))) ∧
    (r.status = 401 →
      (c.request transport jitter).calls = 1 ∧
      (c.request transport jitter).result =
        Except.error
          (SendlyError.fromResponse r.status (normalizeErrorBody r.status r.body))) := by
  constructor
  · intro h5 h5'
    have h := requestAux_const_error c.config transport jitter r htr
      (by omega) (by intro t ht; simp [noRetryStatuses] at ht; omega)
      (c.config.maxRetries + 1) 0 0 [] c.rateLimitInfo none (by omega) (by omega)
    exact ⟨h.1.trans (by rw [hmr]), h.2⟩
  · intro h401
    have hstep : attemptOnce c.config (transport 0) c.rateLimitInfo =
        (updateRateLimitInfo c.rateLimitInfo r, Except.error
          (SendlyError.fromResponse r.status (normalizeErrorBody r.status r.body))) := by
      rw [htr 0]
      simp [attemptOnce, parseResponseModel, h401]
    have hdec : retryDecision c.config.maxRetries 0
        (SendlyError.fromResponse r.status (normalizeErrorBody r.status r.body)) =
        .fail := by
      unfold retryDecision
      rw [if_pos (Or.inl (by rw [statusCode_fromResponse, h401]))]
    unfold HttpClient.request
    rw [requestAux_succ_error c.config transport jitter c.config.maxRetries 0 0 []
      c.rateLimitInfo none _ _ hstep, hdec]
    exact ⟨rfl, rfl⟩

/-- Witness for the C1 theorem: a concrete client with `maxRetries = 3`
against a constant-500 transport makes 4 calls; against a constant-401
transport it makes 1 call. -/
theorem retry_accounting_witness :
    ((HttpClient.mk ⟨"sk_test_v1_abc", "https://sendly.live/api/", 30000, 3⟩ none).request
        (fun _ => .resp ({ status := 500 } : HttpResponseRep)) (fun _ => 0)).calls = 4 ∧
    ((HttpClient.mk ⟨"sk_test_v1_abc", "https://sendly.live/api/", 30000, 3⟩ none).request
        (fun _ => .resp ({ status := 401 } : HttpResponseRep)) (fun _ => 0)).calls = 1 :=
  ⟨((retry_accounting (HttpClient.mk ⟨"sk_test_v1_abc", "https://sendly.live/api/", 30000, 3⟩ none)
      (fun _ => .resp ({ status := 500 } : HttpResponseRep)) (fun _ => 0) ({ status := 500 } : HttpResponseRep)
      rfl (fun _ => rfl)).1 (by decide) (by decide)).1,
   ((retry_accounting (HttpClient.mk ⟨"sk_test_v1_abc", "https://sendly.live/api/", 30000, 3⟩ none)
      (fun _ => .resp ({ status := 401 } : HttpResponseRep)) (fun _ => 0) ({ status := 401 } : HttpResponseRep)
      rfl (fun _ => rfl)).2 rfl).1⟩

/-! ## C9 — retry decision is keyed on status, not error kind -/

/-- Claim C9: the retry decision looks only at the HTTP status: any
classified error whose status is outside {400, 401, 402, 403, 404} and
which is not a RateLimit error is retried with backoff while attempts
remain; in particular a Validation-classified error from a 422 response
is retried (4 transport calls with `maxRetries = 3`) rather than failed
immediately. -/
theorem retryDecision_keyed_on_status :
    (∀ (mr att : Nat) (e : SendlyError), att < mr →
        (∀ t ∈ noRetryStatuses, e.statusCode ≠ some t) →
        e.isRateLimit = false →
        retryDecision mr att e = .backoffRetry) ∧
    (∀ (c : HttpClient) (transport : Nat → TransportResult) (jitter : Nat → Nat)
        (r : HttpResponseRep),
        c.config.maxRetries = 3 → (∀ n, transport n = .resp r) →
        r.status = 422 → r.body.error = "invalid_request" →
        (c.request transport jitter).calls = 4 ∧
        ∃ msg st resp', (c.request transport jitter).result =
          Except.error (SendlyError.validation msg "invalid_request" st resp')) := by
  constructor
  · intro mr att e hlt hsc hrl
    have h400 := hsc 400 (by simp [noRetryStatuses])
    have h401 := hsc 401 (by simp [noRetryStatuses])
    have h402 := hsc 402 (by simp [noRetryStatuses])
    have h403 := hsc 403 (by simp [noRetryStatuses])
    have h404 := hsc 404 (by simp [noRetryStatuses])
    unfold retryDecision
    rw [if_neg (by rintro (h | h) <;> [exact h401 h; exact h403 h])]
    rw [if_neg (by rintro (h | h) <;> [exact h400 h; exact h404 h])]
    rw [if_neg h402]
    cases e <;> simp_all [SendlyError.isRateLimit]
  · intro c transport jitter r hmr htr h422 hberr
    have h := requestAux_const_error c.config transport jitter r htr
      (by rw [h422]; omega)
      (by intro t ht; rw [h422]; simp [noRetryStatuses] at ht; omega)
      (c.config.maxRetries + 1) 0 0 [] c.rateLimitInfo none (by omega) (by omega)
    refine ⟨h.1.trans (by rw [hmr]), ?_⟩
    have hbe : (normalizeErrorBody r.status r.body).error = "invalid_request" := by
      simp [normalizeErrorBody, hberr, jsOrStr]
    have hcode : jsOrStr (normalizeErrorBody r.status r.body).error "internal_error" =
        "invalid_request" := by
      rw [hbe]
      rfl
    have hclass : SendlyError.fromResponse r.status (normalizeErrorBody r.status r.body) =
        SendlyError.validation
          (jsOrStr (normalizeErrorBody r.status r.body).message "An unknown error occurred")
          "invalid_request" (some r.status) (some (normalizeErrorBody r.status r.body)) := by
      simp only [SendlyError.fromResponse, hcode]
      rw [if_neg (by decide)]
      simp
    exact ⟨_, _, _, h.2.trans (by rw [hclass])⟩

/-- Witness for the C9 theorem: a concrete Validation error with status
422 gets the backoff decision at attempt 0 of 3, and a client with
`maxRetries = 3` against a constant transport answering 422
`invalid_request` makes 4 calls and surfaces a Validation error. -/
theorem retryDecision_keyed_on_status_witness :
    retryDecision 3 0 (SendlyError.validation "m" "invalid_request" (some 422) none) =
      .backoffRetry ∧
    ((HttpClient.mk ⟨"sk_test_v1_abc", "https://sendly.live/api/", 30000, 3⟩ none).request
        (fun _ => .resp ({ status := 422, body := { error := "invalid_request" } } :
          HttpResponseRep)) (fun _ => 0)).calls = 4 :=
  ⟨retryDecision_keyed_on_status.1 3 0
      (SendlyError.validation "m" "invalid_request" (some 422) none)
      (by decide) (by decide) (by decide),
   (retryDecision_keyed_on_status.2
      (HttpClient.mk ⟨"sk_test_v1_abc", "https://sendly.live/api/", 30000, 3⟩ none)
      (fun _ => .resp ({ status := 422, body := { error := "invalid_request" } } :
        HttpResponseRep)) (fun _ => 0)
      ({ status := 422, body := { error := "invalid_request" } } : HttpResponseRep)
      rfl (fun _ => rfl) rfl rfl).1⟩

/-! ## C5 — the rate-limit snapshot -/

/-- Claim C5: the snapshot is absent on a freshly constructed client; a
response missing any of the three `X-RateLimit-*` headers leaves the
snapshot untouched; a response carrying all three overwrites it with
exactly the `parseInt` images of the header values — both at the update
function and through a full `request` call. -/
theorem rate_limit_snapshot :
    (∀ (input : HttpClientConfigInput) (c : HttpClient),
        HttpClient.construct input = Except.ok c → c.getRateLimitInfo = none) ∧
    (∀ (rl : Option RateLimitInfo) (r : HttpResponseRep),
        ¬ (jsTruthyStr r.rlLimit = true ∧ jsTruthyStr r.rlRemaining = true ∧
            jsTruthyStr r.rlReset = true) →
        updateRateLimitInfo rl r = rl) ∧
    (∀ (rl : Option RateLimitInfo) (r : HttpResponseRep) (h1 h2 h3 : String),
        r.rlLimit = some h1 → r.rlRemaining = some h2 → r.rlReset = some h3 →
        h1 ≠ "" → h2 ≠ "" → h3 ≠ "" →
        updateRateLimitInfo rl r =
          some { limit := parseIntJs h1, remaining := parseIntJs h2,
                 reset := parseIntJs h3 }) ∧
    (∀ (c : HttpClient) (transport : Nat → TransportResult) (jitter : Nat → Nat)
        (r : HttpResponseRep) (h1 h2 h3 : String),
        transport 0 = .resp r → 200 ≤ r.status → r.status ≤ 299 →
        r.rlLimit = some h1 → r.rlRemaining = some h2 → r.rlReset = some h3 →
        h1 ≠ "" → h2 ≠ "" → h3 ≠ "" →
        (c.afterRequest transport jitter).getRateLimitInfo =
          some { limit := parseIntJs h1, remaining := parseIntJs h2,
                 reset := parseIntJs h3 }) := by
  have hupd : ∀ (rl : Option RateLimitInfo) (r : HttpResponseRep) (h1 h2 h3 : String),
      r.rlLimit = some h1 → r.rlRemaining = some h2 → r.rlReset = some h3 →
      h1 ≠ "" → h2 ≠ "" → h3 ≠ "" →
      updateRateLimitInfo rl r =
        some { limit := parseIntJs h1, remaining := parseIntJs h2,
               reset := parseIntJs h3 } := by
    intro rl r h1 h2 h3 he1 he2 he3 hn1 hn2 hn3
    unfold updateRateLimitInfo
    rw [if_pos ⟨by rw [he1]; simpa [jsTruthyStr] using hn1,
      by rw [he2]; simpa [jsTruthyStr] using hn2,
      by rw [he3]; simpa [jsTruthyStr] using hn3⟩]
    rw [he1, he2, he3]
    rfl
  refine ⟨?_, ?_, hupd, ?_⟩
  · intro input c h
    simp only [HttpClient.construct] at h
    split at h
    · exact absurd h (by simp)
    · split at h
      · exact absurd h (by simp)
      · split at h
        · exact absurd h (by simp)
        · rw [← Except.ok.inj h]
          rfl
  · intro rl r h
    unfold updateRateLimitInfo
    rw [if_neg h]
  · intro c transport jitter r h1 h2 h3 htr0 h200 h299 he1 he2 he3 hn1 hn2 hn3
    have hstep : attemptOnce c.config (transport 0) c.rateLimitInfo =
        (updateRateLimitInfo c.rateLimitInfo r, Except.ok r.body) := by
      rw [htr0]
      simp [attemptOnce, parseResponseModel, h200, h299]
    show (c.request transport jitter).rateLimitInfo = _
    unfold HttpClient.request
    rw [requestAux_succ_ok c.config transport jitter c.config.maxRetries 0 0 []
      c.rateLimitInfo none _ _ hstep]
    exact hupd c.rateLimitInfo r h1 h2 h3 he1 he2 he3 hn1 hn2 hn3

/-- Witness for the C5 theorem: a fresh client's snapshot is absent, and
one successful response carrying the three headers `100`, `99`,
`1700000000` sets it to their parsed values. -/
theorem rate_limit_snapshot_witness :
    (∃ c, HttpClient.construct { apiKey := "sk_test_v1_abc" } = Except.ok c ∧
      c.getRateLimitInfo = none) ∧
    ((HttpClient.mk ⟨"sk_test_v1_abc", "https://sendly.live/api/", 30000, 3⟩ none).afterRequest
        (fun _ => .resp ({ status := 200, rlLimit := some "100",
                           rlRemaining := some "99", rlReset := some "1700000000" } :
          HttpResponseRep)) (fun _ => 0)).getRateLimitInfo =
      some { limit := parseIntJs "100", remaining := parseIntJs "99",
             reset := parseIntJs "1700000000" } :=
  ⟨⟨HttpClient.mk ⟨"sk_test_v1_abc", "https://sendly.live/api/", 30000, 3⟩ none,
    by rfl,
    rate_limit_snapshot.1 { apiKey := "sk_test_v1_abc" }
      (HttpClient.mk ⟨"sk_test_v1_abc", "https://sendly.live/api/", 30000, 3⟩ none)
      (by rfl)⟩,
   rate_limit_snapshot.2.2.2
      (HttpClient.mk ⟨"sk_test_v1_abc", "https://sendly.live/api/", 30000, 3⟩ none)
      (fun _ => .resp ({ status := 200, rlLimit := some "100",
                         rlRemaining := some "99", rlReset := some "1700000000" } :
        HttpResponseRep)) (fun _ => 0)
      ({ status := 200, rlLimit := some "100", rlRemaining := some "99",
         rlReset := some "1700000000" } : HttpResponseRep)
      "100" "99" "1700000000" rfl (by decide) (by decide) rfl rfl rfl
      (by decide) (by decide) (by decide)⟩

/-! ## Webhook signature lemmas -/

/-- A generated signature is never the empty string (it starts with
`sha256=`). -/
theorem sign_ne_empty (p s : String) : generateWebhookSignature p s ≠ "" := by
  intro h
  have h2 := congrArg String.length h
  rw [generateWebhookSignature, String.length_append] at h2
  have h7 : ("sha256=" : String).length = 7 := rfl
  have h0 : ("" : String).length = 0 := rfl
  omega

/-- Verification succeeds on the exact signature generated for the same
payload and secret (no timestamp), provided payload and secret are
non-empty. -/
theorem verify_sign_eq_true (p s : String) (tol now : Int)
    (hp : p ≠ "") (hs : s ≠ "") :
    verifyWebhookSignature p (generateWebhookSignature p s) s none tol now = true := by
  unfold verifyWebhookSignature
  rw [if_neg (by rintro (h | h | h); exacts [hp h, sign_ne_empty p s h, hs h])]
  show timingSafeEqualStr (generateWebhookSignature p s) (generateWebhookSignature p s) = true
  unfold timingSafeEqualStr
  rw [if_pos rfl]
  simp

/-- Verification fails (no timestamp) whenever the supplied signature
differs from the generated one. -/
theorem verify_false_of_ne (p sig s : String) (tol now : Int)
    (hne : sig ≠ generateWebhookSignature p s) :
    verifyWebhookSignature p sig s none tol now = false := by
  unfold verifyWebhookSignature
  by_cases hguard : p = "" ∨ sig = "" ∨ s = ""
  · rw [if_pos hguard]
  · rw [if_neg hguard]
    show timingSafeEqualStr sig (generateWebhookSignature p s) = false
    unfold timingSafeEqualStr
    by_cases hlen : (utf8Encode sig).length =
        (utf8Encode (generateWebhookSignature p s)).length
    · rw [if_pos hlen]
      exact beq_eq_false_iff_ne.mpr hne
    · rw [if_neg hlen]

/-! ## C3 — signature round-trip -/

/-- Claim C3 counterexample: the round-trip fails on the empty payload —
`verifyWebhookSignature` rejects any empty payload before comparing, even
against the exactly matching generated signature. -/
theorem verify_roundtrip_fails_on_empty_payload :
    verifyWebhookSignature ""
      (generateWebhookSignature "" "whsec_test") "whsec_test" none 300 0 = false := by
  rfl

/-- Claim C3 (amended): for every non-empty payload and non-empty
secret, verifying the generated signature for that payload and secret
succeeds; and verification returns false for every supplied signature
that differs from the generated one — in particular for the signature a
mismatched secret or a mutated payload produces whenever its digest
differs. -/
theorem webhook_signature_roundtrip :
    (∀ (p s : String) (tol now : Int), p ≠ "" → s ≠ "" →
        verifyWebhookSignature p (generateWebhookSignature p s) s none tol now = true) ∧
    (∀ (p sig s : String) (tol now : Int), sig ≠ generateWebhookSignature p s →
        verifyWebhookSignature p sig s none tol now = false) :=
  ⟨verify_sign_eq_true, verify_false_of_ne⟩

/-- Witness for the amended C3 theorem: the round-trip succeeds at a
concrete non-empty payload and secret, and a signature known to differ
from the generated one (the empty string) is rejected. -/
theorem webhook_signature_roundtrip_witness :
    verifyWebhookSignature "payload"
      (generateWebhookSignature "payload" "whsec_1") "whsec_1" none 300 0 = true ∧
    verifyWebhookSignature "payload" "" "whsec_1" none 300 0 = false :=
  ⟨webhook_signature_roundtrip.1 "payload" "whsec_1" 300 0 (by decide) (by decide),
   webhook_signature_roundtrip.2 "payload" "" "whsec_1" 300 0
     (Ne.symm (sign_ne_empty "payload" "whsec_1"))⟩

/-! ## C10 — empty inputs always fail verification -/

/-- Claim C10: `verifyWebhookSignature` returns false whenever the
payload, the signature, or the secret is empty — before any comparison,
so even a signature that would otherwise match is rejected. -/
theorem verify_false_on_empty_inputs (p sig s : String) (t : Option String)
    (tol now : Int) (h : p = "" ∨ sig = "" ∨ s = "") :
    verifyWebhookSignature p sig s t tol now = false := by
  unfold verifyWebhookSignature
  rw [if_pos h]

/-- Witness for the C10 theorem: the empty payload is rejected even when
the supplied signature is exactly the generated one for that payload and
secret. -/
theorem verify_false_on_empty_inputs_witness :
    verifyWebhookSignature ""
      (generateWebhookSignature "" "whsec_k") "whsec_k" none 300 0 = false :=
  verify_false_on_empty_inputs "" (generateWebhookSignature "" "whsec_k") "whsec_k"
    none 300 0 (Or.inl rfl)

/-! ## C8 — webhook event parsing errors -/

/-- `structureCheck` on a non-null value is the four-field truthiness
test. -/
theorem structureCheck_of_ne_null (v : Json) (hv : v ≠ Json.null) :
    structureCheck v =
      if ¬ truthyField v "id" = true ∨ ¬ truthyField v "type" = true ∨
          ¬ truthyField v "created" = true ∨ dataObjectTruthy v = false then
        Except.error (.error "Invalid webhook event structure")
      else Except.ok v := by
  cases v with
  | null => exact absurd rfl hv
  | bool b => rfl
  | num m e => rfl
  | str s => rfl
  | arr xs => rfl
  | obj fs => rfl

/-- Claim C8 counterexample: with a valid signature over a payload that
is not JSON, `parseWebhookEvent` throws the plain
`Error("Failed to parse webhook payload")`, not a `WebhookSignatureError`
as the claim asserts for all three failure cases. -/
theorem parseWebhookEvent_nonjson_not_signature_error :
    parseWebhookEvent "not json"
      (generateWebhookSignature "not json" "whsec_1") "whsec_1" none 0 =
      Except.error (JsError.error "Failed to parse webhook payload") ∧
    (Except.error (JsError.error "Failed to parse webhook payload") :
        Except JsError Json) ≠
      Except.error (JsError.webhookSignatureError "Invalid webhook signature") := by
  constructor
  · have hv := verify_sign_eq_true "not json" "whsec_1" 300 0 (by decide) (by decide)
    unfold parseWebhookEvent
    rw [hv]
    rw [if_neg (by simp)]
    rfl
  · intro h
    injection h with h2
    exact JsError.noConfusion h2

/-- Claim C8 (amended): `parseWebhookEvent` fails in three distinguished
cases — with a `WebhookSignatureError` when the signature does not
verify, and with a plain `Error` (not a Signature error), whose message
distinguishes the two cases, when the payload does not deserialize as
JSON or when a required structural field (id, type, created, data.object)
is missing; on success it returns the parsed event. -/
theorem parseWebhookEvent_error_taxonomy :
    (∀ (p sig s : String) (t : Option String) (now : Int),
        verifyWebhookSignature p sig s t 300 now = false →
        parseWebhookEvent p sig s t now =
          Except.error (JsError.webhookSignatureError "Invalid webhook signature")) ∧
    (∀ (p s : String) (now : Int), p ≠ "" → s ≠ "" → jsonParse p = none →
        parseWebhookEvent p (generateWebhookSignature p s) s none now =
          Except.error (JsError.error "Failed to parse webhook payload")) ∧
    (∀ (p s : String) (now : Int) (v : Json), p ≠ "" → s ≠ "" →
        jsonParse p = some v → v ≠ Json.null →
        (¬ truthyField v "id" = true ∨ ¬ truthyField v "type" = true ∨
          ¬ truthyField v "created" = true ∨ dataObjectTruthy v = false) →
        parseWebhookEvent p (generateWebhookSignature p s) s none now =
          Except.error (JsError.error "Invalid webhook event structure")) ∧
    (∀ (p s : String) (now : Int) (v : Json), p ≠ "" → s ≠ "" →
        jsonParse p = some v → v ≠ Json.null →
        truthyField v "id" = true → truthyField v "type" = true →
        truthyField v "created" = true → dataObjectTruthy v = true →
        parseWebhookEvent p (generateWebhookSignature p s) s none now =
          Except.ok v) := by
  refine ⟨?_, ?_, ?_, ?_⟩
  · intro p sig s t now h
    unfold parseWebhookEvent
    rw [if_pos h]
  · intro p s now hp hs hjson
    have hv := verify_sign_eq_true p s 300 now hp hs
    unfold parseWebhookEvent
    rw [hv, if_neg (by simp), hjson]
  · intro p s now v hp hs hjson hvnull hcond
    have hv := verify_sign_eq_true p s 300 now hp hs
    unfold parseWebhookEvent
    rw [hv, if_neg (by simp), hjson]
    show structureCheck v = _
    rw [structureCheck_of_ne_null v hvnull, if_pos hcond]
  · intro p s now v hp hs hjson hvnull hid hty hcr hdo
    have hv := verify_sign_eq_true p s 300 now hp hs
    unfold parseWebhookEvent
    rw [hv, if_neg (by simp), hjson]
    show structureCheck v = _
    rw [structureCheck_of_ne_null v hvnull]
    rw [if_neg ?_]
    rintro (h | h | h | h)
    · exact h hid
    · exact h hty
    · exact h hcr
    · rw [hdo] at h
      exact absurd h (by simp)

/-- Witness for the amended C8 theorem at concrete inputs: an empty
payload (failing verification) gives the Signature error; a valid
signature over `oops` gives the malformed-payload `Error`; a valid
signature over `{}` gives the missing-fields `Error`; and a valid
signature over a complete event parses successfully. -/
theorem parseWebhookEvent_error_taxonomy_witness :
    parseWebhookEvent "" "bad" "whsec_1" none 0 =
      Except.error (JsError.webhookSignatureError "Invalid webhook signature") ∧
    parseWebhookEvent "oops"
      (generateWebhookSignature "oops" "whsec_1") "whsec_1" none 0 =
      Except.error (JsError.error "Failed to parse webhook payload") ∧
    parseWebhookEvent "\x7b\x7d"
      (generateWebhookSignature "\x7b\x7d" "whsec_1") "whsec_1" none 0 =
      Except.error (JsError.error "Invalid webhook event structure") ∧
    parseWebhookEvent
      "\x7b\"id\":\"evt_1\",\"type\":\"message.sent\",\"created\":1,\"data\":\x7b\"object\":\x7b\"id\":\"msg_1\"\x7d\x7d\x7d"
      (generateWebhookSignature
        "\x7b\"id\":\"evt_1\",\"type\":\"message.sent\",\"created\":1,\"data\":\x7b\"object\":\x7b\"id\":\"msg_1\"\x7d\x7d\x7d"
        "whsec_1") "whsec_1" none 0 =
      Except.ok (Json.obj [("id", Json.str "evt_1"), ("type", Json.str "message.sent"),
        ("created", Json.num 1 0),
        ("data", Json.obj [("object", Json.obj [("id", Json.str "msg_1")])])]) :=
  ⟨parseWebhookEvent_error_taxonomy.1 "" "bad" "whsec_1" none 0 (by rfl),
   parseWebhookEvent_error_taxonomy.2.1 "oops" "whsec_1" 0
     (by decide) (by decide) (by rfl),
   parseWebhookEvent_error_taxonomy.2.2.1 "\x7b\x7d" "whsec_1" 0 (Json.obj [])
     (by decide) (by decide) (by rfl) (fun h => Json.noConfusion h)
     (Or.inl (by decide)),
   parseWebhookEvent_error_taxonomy.2.2.2
     "\x7b\"id\":\"evt_1\",\"type\":\"message.sent\",\"created\":1,\"data\":\x7b\"object\":\x7b\"id\":\"msg_1\"\x7d\x7d\x7d"
     "whsec_1" 0
     (Json.obj [("id", Json.str "evt_1"), ("type", Json.str "message.sent"),
       ("created", Json.num 1 0),
       ("data", Json.obj [("object", Json.obj [("id", Json.str "msg_1")])])])
     (by decide) (by decide) (by rfl) (fun h => Json.noConfusion h)
     (by rfl) (by rfl) (by rfl) (by rfl)⟩

/-- Witness for the amended C6 theorem at concrete inputs: `+15551234567`
is accepted; `15551234567` (no `+`) and `+1a2` (non-digit after the `+`)
are rejected. -/
theorem validatePhoneNumber_characterization_witness :
    validatePhoneNumber "+15551234567" = Except.ok () ∧
    (∃ msg, validatePhoneNumber "15551234567" = Except.error msg) ∧
    (∃ msg, validatePhoneNumber "+1a2" = Except.error msg) :=
  ⟨validatePhoneNumber_characterization.1 '1'
      ['5', '5', '5', '1', '2', '3', '4', '5', '6', '7']
      (by decide) (by decide) (by decide) (by decide) (by decide),
   validatePhoneNumber_characterization.2.1 "15551234567" (by decide),
   validatePhoneNumber_characterization.2.2 "+1a2" 'a' (by decide) (by decide)⟩

end Sendly
